import Mathlib

/-!
A shallow embedding of the MessBuddy backend (FastAPI + Beanie ODM) and proofs
about its subscription, meal-pass, rating, sign-up and check-in logic.

Conventions of the embedding:
* MongoDB `ObjectId`s are modelled as `String`s (all comparisons in the code go
  through `str(...)` or object identity of the stored id).
* `datetime` values are `Nat` seconds since the epoch; `timedelta(days=n)` is
  `n * 86400`; truncation to midnight UTC is `t / 86400 * 86400`.
* Each Beanie collection is a `List` of documents inside a `DB` record;
  `Model.get` / `find_one` become `List.find?`, `save` of a fetched document
  replaces the entry with the same id, `insert` appends.
* `HTTPException` and the custom service exceptions become `Except` results;
  each endpoint returns its result together with the post-state `DB`.
* SHA-256 and bcrypt are abstract function parameters: the code treats both as
  opaque string transformers, and nothing in the claims depends on the digest
  values themselves.
-/

namespace MessBuddy

/-- `fastapi.HTTPException`: a status code plus a detail message. -/
structure HTTPError where
  statusCode : Nat
  detail : String
deriving DecidableEq, Repr

/-- `app/models/user.py`, `LoginRole`: the two user roles. -/
inductive LoginRole where
  | user
  | messOwner
deriving DecidableEq, Repr

/-- `LoginRole.value` as used for JWT payloads. -/
def LoginRole.value : LoginRole → String
  | .user => "User"
  | .messOwner => "Mess Owner"

/-- `app/models/user.py`, `User` document (fields the endpoints read). -/
structure UserDoc where
  id : String
  username : String
  email : String
  password : String
  loginRole : LoginRole
  userID : Int
deriving DecidableEq, Repr

/-- `User.is_mess_owner`. -/
def UserDoc.is_mess_owner (u : UserDoc) : Bool :=
  match u.loginRole with
  | .messOwner => true
  | .user => false

/-- `User.is_regular_user`. -/
def UserDoc.is_regular_user (u : UserDoc) : Bool :=
  match u.loginRole with
  | .user => true
  | .messOwner => false

/-! ### Mess ratings (`app/models/mess.py`)

`Mess.Ratings : List[Any]` mixes ints, floats, digit strings and other legacy
junk.  An entry is one of four shapes; Python floats are modelled as rationals
(every value the code produces here is exact). -/

/-- One element of the `Ratings` list. -/
inductive RatingEntry where
  | rint (n : Int)
  | rfloat (q : ℚ)
  | rstr (s : String)
  | rother
deriving DecidableEq, Repr

/-- ASCII decimal digit test. -/
def isDigitChar (c : Char) : Bool :=
  '0' ≤ c && c ≤ '9'

/-- Python `str.isdigit` on ASCII data: non-empty, every char in `'0'..'9'`. -/
def pyIsdigit (s : String) : Bool :=
  !s.toList.isEmpty && s.toList.all isDigitChar

/-- Python `s.replace('.', '', 1)` on the character list: drop the first `'.'`. -/
def replaceDotOnce : List Char → List Char
  | [] => []
  | c :: cs => if c = '.' then cs else c :: replaceDotOnce cs

/-- Python `s.replace('.', '', 1)`. -/
def strReplaceDotOnce (s : String) : String :=
  String.mk (replaceDotOnce s.toList)

/-- Value of a digit list read in base 10. -/
def digitsVal (l : List Char) : Nat :=
  l.foldl (fun a c => a * 10 + (c.toNat - 48)) 0

/-- Split a char list at the first `'.'`, dropping the dot. -/
def splitAtDot : List Char → List Char × List Char
  | [] => ([], [])
  | c :: cs =>
    if c = '.' then ([], cs)
    else
      let p := splitAtDot cs
      (c :: p.1, p.2)

/-- Python `float(s)` on the strings that pass the code's digit test:
integer part plus fractional part. -/
def pyFloat (s : String) : ℚ :=
  let p := splitAtDot s.toList
  (digitsVal p.1 : ℚ) + (digitsVal p.2 : ℚ) / ((10 : ℚ) ^ p.2.length)

/-- One iteration of the filtering loop in `Mess.calculate_average_rating`:
ints and floats are kept as numbers, strings are kept when
`rating.replace('.', '', 1).isdigit()`, everything else is skipped. -/
def ratingValue : RatingEntry → Option ℚ
  | .rint n => some (n : ℚ)
  | .rfloat q => some q
  | .rstr s => if pyIsdigit (strReplaceDotOnce s) then some (pyFloat s) else none
  | .rother => none

/-- `Mess.calculate_average_rating`. -/
def calculate_average_rating (ratings : List RatingEntry) : ℚ :=
  if ratings.isEmpty then 0
  else
    let valid := ratings.filterMap ratingValue
    if valid.isEmpty then 0
    else valid.sum / (valid.length : ℚ)

/-! Spec-side restatement for C2, written from the claim's words ("int and
float entries count as themselves, strings made of digits with at most one
decimal point are converted to float, and every other entry is ignored"). -/

/-- Claim wording: which entries are numeric-convertible, and their value. -/
def specNumeric : RatingEntry → Option ℚ
  | .rint n => some (n : ℚ)
  | .rfloat q => some q
  | .rstr s =>
    if (s.toList.all fun c => isDigitChar c || c = '.') &&
        s.toList.count '.' ≤ 1 &&
        s.toList.any isDigitChar then
      some (pyFloat s)
    else none
  | .rother => none

/-- Claim wording: 0 when no valid entry, else sum over count of the valid
entries. -/
def specAverage (ratings : List RatingEntry) : ℚ :=
  let valid := ratings.filterMap specNumeric
  if valid.isEmpty then 0 else valid.sum / (valid.length : ℚ)

/-! ### Remaining document models -/

/-- `SubscriptionPlan.duration` literal. -/
inductive Duration where
  | Daily
  | Weekly
  | Monthly
deriving DecidableEq, Repr

/-- `SubscriptionPlan.mealType` literal. -/
inductive MealType where
  | Veg
  | NonVeg
  | Jain
deriving DecidableEq, Repr

/-- The JSON rendering of a meal type (`'Veg' | 'Non-Veg' | 'Jain'`). -/
def MealType.json : MealType → String
  | .Veg => "Veg"
  | .NonVeg => "Non-Veg"
  | .Jain => "Jain"

/-- `UserSubscription.status` literal. -/
inductive SubStatus where
  | Active
  | Expired
  | Cancelled
  | Pending
  | PlanRemoved
deriving DecidableEq, Repr

/-- `UserSubscription.paymentStatus` literal. -/
inductive PayStatus where
  | Pending
  | Completed
  | Failed
deriving DecidableEq, Repr

/-- `CheckIn.mealType` literal. -/
inductive CheckMeal where
  | breakfast
  | lunch
  | dinner
deriving DecidableEq, Repr

/-- `CheckIn.status` literal. -/
inductive CheckStatus where
  | success
  | failed
deriving DecidableEq, Repr

/-- `app/models/subscription_plan.py`, `SubscriptionPlan` document. -/
structure SubscriptionPlanDoc where
  id : String
  messId : String
  planName : String
  duration : Duration
  mealType : MealType
  price : ℚ
  description : String
  isActive : Bool
  createdAt : Nat
  updatedAt : Nat
deriving DecidableEq, Repr

/-- `app/models/user_subscription.py`, `UserSubscription` document. -/
structure UserSubscriptionDoc where
  id : String
  userId : String
  planId : String
  startDate : Nat
  endDate : Nat
  status : SubStatus
  paymentStatus : PayStatus
  createdAt : Nat
  updatedAt : Nat
deriving DecidableEq, Repr

/-- `app/models/meal_pass.py`, `MealPass` document.  `validFrom`/`validTill`
are `Optional[datetime]` defaulting to `None`. -/
structure MealPassDoc where
  id : String
  userId : String
  subscriptionId : String
  messId : String
  qrCode : String
  isActive : Bool
  isBlocked : Bool
  blockReason : Option String
  validFrom : Option Nat
  validTill : Option Nat
deriving DecidableEq, Repr

/-- `app/models/check_in.py`, `CheckIn` document. -/
structure CheckInDoc where
  id : String
  userId : String
  messId : String
  mealPassId : String
  mealType : CheckMeal
  status : CheckStatus
  createdAt : Nat
deriving DecidableEq, Repr

/-- `app/models/mess.py`, `Mess` document (the fields the rating logic reads).
`RatedBy : List[Any]` is only ever compared through `str(uid)`, so each entry
is modelled by its string image. -/
structure MessDoc where
  id : String
  ratings : List RatingEntry
  ratedBy : List String
deriving DecidableEq, Repr

/-- The document store: one list per Beanie collection. -/
structure DB where
  users : List UserDoc
  plans : List SubscriptionPlanDoc
  subscriptions : List UserSubscriptionDoc
  mealPasses : List MealPassDoc
  checkIns : List CheckInDoc
  messes : List MessDoc
deriving Repr

/-- `User.get(id)`. -/
def findUser (db : DB) (id : String) : Option UserDoc :=
  db.users.find? fun u => u.id == id

/-- `SubscriptionPlan.get(id)`. -/
def findPlan (db : DB) (id : String) : Option SubscriptionPlanDoc :=
  db.plans.find? fun p => p.id == id

/-- `UserSubscription.get(id)`. -/
def findSubscriptionById (db : DB) (id : String) : Option UserSubscriptionDoc :=
  db.subscriptions.find? fun s => s.id == id

/-- `UserSubscription.find_one(userId == u, planId == p)`. -/
def findSubByUserPlan (db : DB) (userId planId : String) : Option UserSubscriptionDoc :=
  db.subscriptions.find? fun s => s.userId == userId && s.planId == planId

/-- `MealPass.find_one(qrCode == qr)`. -/
def findPassByQr (db : DB) (qr : String) : Option MealPassDoc :=
  db.mealPasses.find? fun mp => mp.qrCode == qr

/-- `MealPass.get(id)`. -/
def findPassById (db : DB) (id : String) : Option MealPassDoc :=
  db.mealPasses.find? fun mp => mp.id == id

/-- `Mess.get(id)` (via `MessService.get_mess_by_id`). -/
def findMess (db : DB) (id : String) : Option MessDoc :=
  db.messes.find? fun m => m.id == id

/-- Seconds in a day: `timedelta(days=1)`. -/
def secondsPerDay : Nat := 86400

/-- The duration → days mapping used by both `subscribe_to_plan` and
`activate_subscription` (`Daily` 1, `Weekly` 7, `Monthly` 30). -/
def durationDays : Duration → Nat
  | .Daily => 1
  | .Weekly => 7
  | .Monthly => 30

/-! Lemmas relating the code's digit test to the claim's characterisation. -/

lemma isDigitChar_dot : isDigitChar '.' = false := by decide

lemma mem_replaceDotOnce {c : Char} : ∀ {l : List Char}, c ∈ replaceDotOnce l → c ∈ l := by
  intro l
  induction l with
  | nil => simp [replaceDotOnce]
  | cons d ds ih =>
    simp only [replaceDotOnce]
    split
    · intro h; exact List.mem_cons_of_mem _ h
    · intro h
      rcases List.mem_cons.mp h with h | h
      · exact h ▸ List.mem_cons_self _ _
      · exact List.mem_cons_of_mem _ (ih h)

lemma replaceDotOnce_nil_cases : ∀ {l : List Char}, replaceDotOnce l = [] →
    l = [] ∨ l = ['.'] := by
  intro l
  induction l with
  | nil => intro _; exact Or.inl rfl
  | cons d ds ih =>
    simp only [replaceDotOnce]
    split
    · rename_i hd
      intro h
      subst hd h
      exact Or.inr rfl
    · intro h; simp at h

lemma all_digit_eq_count_zero (l : List Char) :
    l.all isDigitChar =
      ((l.all fun c => isDigitChar c || c = '.') && decide (l.count '.' = 0)) := by
  rw [Bool.eq_iff_iff]
  simp only [List.all_eq_true, Bool.and_eq_true, decide_eq_true_eq, Bool.or_eq_true,
    List.count_eq_zero]
  constructor
  · intro h
    refine ⟨fun c hc => Or.inl (h c hc), fun hdot => ?_⟩
    have := h _ hdot
    simp [isDigitChar_dot] at this
  · rintro ⟨h, hnd⟩ c hc
    rcases h c hc with h' | h'
    · exact h'
    · exact absurd (h' ▸ hc) hnd

lemma replaceDotOnce_all_digit (l : List Char) :
    (replaceDotOnce l).all isDigitChar =
      ((l.all fun c => isDigitChar c || c = '.') && decide (l.count '.' ≤ 1)) := by
  induction l with
  | nil => simp [replaceDotOnce]
  | cons d ds ih =>
    simp only [replaceDotOnce]
    split
    · rename_i hd
      subst hd
      rw [all_digit_eq_count_zero]
      simp [List.count_cons, isDigitChar_dot]
    · rename_i hd
      simp only [List.all_cons, List.count_cons, ih]
      simp [hd, Bool.and_assoc]

lemma pyIsdigit_replace_eq (s : String) :
    pyIsdigit (strReplaceDotOnce s) =
      ((s.toList.all fun c => isDigitChar c || c = '.') &&
        decide (s.toList.count '.' ≤ 1) && s.toList.any isDigitChar) := by
  have hdata : (strReplaceDotOnce s).toList = replaceDotOnce s.toList := rfl
  rw [Bool.eq_iff_iff]
  constructor
  · intro h
    simp only [pyIsdigit, hdata, Bool.and_eq_true, Bool.not_eq_true'] at h
    obtain ⟨hne, hall⟩ := h
    rw [replaceDotOnce_all_digit] at hall
    simp only [Bool.and_eq_true] at hall ⊢
    obtain ⟨h1, h2⟩ := hall
    refine ⟨⟨h1, h2⟩, ?_⟩
    have hnil : replaceDotOnce s.toList ≠ [] := by
      intro hn
      rw [hn] at hne
      simp at hne
    rcases List.exists_mem_of_ne_nil _ hnil with ⟨c, hc⟩
    have hall2 : (replaceDotOnce s.toList).all isDigitChar = true := by
      rw [replaceDotOnce_all_digit, Bool.and_eq_true]
      exact ⟨h1, h2⟩
    have hdig : isDigitChar c = true := List.all_eq_true.mp hall2 c hc
    exact List.any_eq_true.mpr ⟨c, mem_replaceDotOnce hc, hdig⟩
  · intro h
    simp only [Bool.and_eq_true] at h
    obtain ⟨⟨h1, h2⟩, hany⟩ := h
    simp only [pyIsdigit, hdata, Bool.and_eq_true, Bool.not_eq_true']
    constructor
    · rcases List.any_eq_true.mp hany with ⟨c, hc, hdig⟩
      cases hrep : replaceDotOnce s.toList with
      | nil =>
        exfalso
        rcases replaceDotOnce_nil_cases hrep with h | h
        · rw [h] at hc; simp at hc
        · rw [h] at hc
          simp only [List.mem_singleton] at hc
          rw [hc, isDigitChar_dot] at hdig
          exact Bool.noConfusion hdig
      | cons a as => simp
    · rw [replaceDotOnce_all_digit, Bool.and_eq_true]
      exact ⟨h1, h2⟩

lemma ratingValue_eq_specNumeric : ratingValue = specNumeric := by
  funext r
  cases r with
  | rint n => rfl
  | rfloat q => rfl
  | rother => rfl
  | rstr s =>
    simp only [ratingValue, specNumeric, pyIsdigit_replace_eq]

/-- C2: `Mess.calculate_average_rating` returns 0 when `Ratings` is empty or
contains no numeric-convertible entry, and otherwise the arithmetic mean of the
valid entries, where ints and floats count as themselves, digit strings with at
most one decimal point are converted, and every other entry is excluded from
both the sum and the denominator (`specAverage` is that wording verbatim). -/
theorem calculate_average_rating_matches_spec (ratings : List RatingEntry) :
    calculate_average_rating ratings = specAverage ratings := by
  unfold calculate_average_rating specAverage
  rw [ratingValue_eq_specNumeric]
  by_cases h : ratings.isEmpty
  · have : ratings = [] := List.isEmpty_iff.mp h
    subst this
    simp
  · simp [h]

/-! ### `subscribe_to_plan` (`app/routers/subscription_router.py`) -/

/-- `json.dumps(qr_data, sort_keys=True)` for the QR payload: the six keys in
sorted order (`mealType < messId < planId < subscriptionId < timestamp <
userId`), with Python's default `', '` / `': '` separators. -/
def qrPayloadJson (userId subscriptionId planId messId : String) (mt : MealType)
    (timestamp : Nat) : String :=
  "\x7b\"mealType\": \"" ++ mt.json ++ "\", \"messId\": \"" ++ messId ++
    "\", \"planId\": \"" ++ planId ++ "\", \"subscriptionId\": \"" ++ subscriptionId ++
    "\", \"timestamp\": " ++ toString timestamp ++ ", \"userId\": \"" ++ userId ++ "\"\x7d"

/-- Non-deterministic inputs of one `subscribe_to_plan` execution: the abstract
SHA-256 hex digest, the two `datetime.utcnow()` samples, the ids the store
assigns to the new documents, and whether `meal_pass.save()` raises. -/
structure SubscribeEnv where
  sha256Hex : String → String
  now : Nat
  qrNow : Nat
  newSubId : String
  newPassId : String
  passSaveFails : Bool

/-- `POST /api/subscriptions/subscribe` (`subscribe_to_plan`). -/
def subscribe_to_plan (env : SubscribeEnv) (db : DB) (planId userId : String) :
    Except HTTPError UserSubscriptionDoc × DB :=
  match findUser db userId with
  | none => (.error ⟨403, "Only users can subscribe to plans"⟩, db)
  | some user =>
    if !user.is_regular_user then
      (.error ⟨403, "Only users can subscribe to plans"⟩, db)
    else
      match findPlan db planId with
      | none => (.error ⟨404, "Plan not found or inactive"⟩, db)
      | some plan =>
        if !plan.isActive then
          (.error ⟨404, "Plan not found or inactive"⟩, db)
        else
          match findSubByUserPlan db user.id plan.id with
          | some _ =>
            (.error ⟨400, "You have already subscribed to this plan before. Each plan can only be subscribed once."⟩, db)
          | none =>
            let startDate := env.now
            let endDate := startDate + durationDays plan.duration * secondsPerDay
            let subscription : UserSubscriptionDoc :=
              { id := env.newSubId, userId := user.id, planId := plan.id,
                startDate := startDate, endDate := endDate,
                status := .Pending, paymentStatus := .Pending,
                createdAt := env.now, updatedAt := env.now }
            let db1 := { db with subscriptions := db.subscriptions ++ [subscription] }
            if env.passSaveFails then
              (.ok subscription, db1)
            else
              let qrString := env.sha256Hex
                (qrPayloadJson user.id subscription.id plan.id plan.messId
                  plan.mealType env.qrNow)
              let mealPass : MealPassDoc :=
                { id := env.newPassId, userId := user.id,
                  subscriptionId := subscription.id, messId := plan.messId,
                  qrCode := qrString, isActive := true, isBlocked := false,
                  blockReason := none, validFrom := some startDate,
                  validTill := some endDate }
              (.ok subscription, { db1 with mealPasses := db1.mealPasses ++ [mealPass] })

/-! ### `AuthService.signup` (`app/services/auth_service.py`) -/

/-- The service exceptions signup can raise. -/
inductive AuthError where
  | validationErr (msg : String)
  | duplicateErr (field value : String)
deriving DecidableEq, Repr

/-- `AuthService.signup`: `hashPassword` abstracts bcrypt, `createToken`
abstracts JWT creation, `newId` is the store-assigned id, `nowMs` the
millisecond timestamp used for `UserID`. -/
def signup (hashPassword : String → String) (createToken : String → String → String)
    (newId : String) (nowMs : Int) (db : DB)
    (username email password : String) (role : LoginRole) :
    Except AuthError (UserDoc × String) × DB :=
  if username = "" || email = "" || password = "" then
    (.error (.validationErr "All fields are required"), db)
  else if password.length > 128 then
    (.error (.validationErr "Password is too long (max 128 characters)"), db)
  else if (db.users.find? fun u => u.email == email).isSome then
    (.error (.duplicateErr "Email" email), db)
  else if (db.users.find? fun u => u.username == username).isSome then
    (.error (.duplicateErr "Username" username), db)
  else
    let user : UserDoc :=
      { id := newId, username := username, email := email,
        password := hashPassword password, loginRole := role, userID := nowMs }
    (.ok (user, createToken newId role.value),
      { db with users := db.users ++ [user] })

/-! ### `validate_meal_pass` (`app/routers/mealpass_router.py`) -/

/-- `POST /api/mealpass/validate/{user_id}`.  Returns the pass together with
the populated subscription and user on success.  A pass with a missing
`validFrom`/`validTill` makes Python's `now < None` comparison raise
`TypeError`, which the catch-all turns into a 500 (short-circuit order of
`now < validFrom or now > validTill` preserved). -/
def validate_meal_pass (now : Nat) (db : DB) (qrCode : String) :
    Except HTTPError (MealPassDoc × UserSubscriptionDoc × UserDoc) :=
  match findPassByQr db qrCode with
  | none => .error ⟨404, "Invalid QR code"⟩
  | some mp =>
    if mp.isBlocked then
      .error ⟨403, "User is blocked: " ++ (mp.blockReason.getD "None")⟩
    else if !mp.isActive then
      .error ⟨403, "Meal pass is not active"⟩
    else
      match mp.validFrom with
      | none => .error ⟨500, "TypeError: comparison with None"⟩
      | some vf =>
        if now < vf then .error ⟨403, "Meal pass has expired"⟩
        else
          match mp.validTill with
          | none => .error ⟨500, "TypeError: comparison with None"⟩
          | some vt =>
            if now > vt then .error ⟨403, "Meal pass has expired"⟩
            else
              match findSubscriptionById db mp.subscriptionId with
              | none => .error ⟨404, "Subscription not found"⟩
              | some sub =>
                if sub.status != .Active then
                  .error ⟨403, "Subscription is not active"⟩
                else
                  match findUser db mp.userId with
                  | none => .error ⟨404, "User not found"⟩
                  | some user => .ok (mp, sub, user)

/-! ### `update_plan` (`app/routers/subscription_router.py`) -/

/-- `UpdatePlanRequest`: all plan fields optional, `userId` required. -/
structure UpdatePlanRequest where
  planName : Option String
  duration : Option Duration
  mealType : Option MealType
  price : Option ℚ
  description : Option String
  isActive : Option Bool
  userId : String
deriving DecidableEq, Repr

/-- The field-update loop of `update_plan`: write exactly the non-`None`
payload fields, then refresh `updated_at`. -/
def applyPlanUpdate (plan : SubscriptionPlanDoc) (payload : UpdatePlanRequest)
    (now : Nat) : SubscriptionPlanDoc :=
  { plan with
    planName := payload.planName.getD plan.planName,
    duration := payload.duration.getD plan.duration,
    mealType := payload.mealType.getD plan.mealType,
    price := payload.price.getD plan.price,
    description := payload.description.getD plan.description,
    isActive := payload.isActive.getD plan.isActive,
    updatedAt := now }

/-- `PUT /api/subscriptions/plans/{plan_id}` (`update_plan`). -/
def update_plan (now : Nat) (db : DB) (planId : String) (payload : UpdatePlanRequest) :
    Except HTTPError SubscriptionPlanDoc × DB :=
  match findPlan db planId with
  | none => (.error ⟨404, "Plan not found"⟩, db)
  | some plan =>
    match findUser db payload.userId with
    | none => (.error ⟨403, "You can only update your own plans"⟩, db)
    | some user =>
      if !user.is_mess_owner || plan.messId != payload.userId then
        (.error ⟨403, "You can only update your own plans"⟩, db)
      else
        let plan2 := applyPlanUpdate plan payload now
        (.ok plan2,
          { db with plans := db.plans.map fun p => if p.id == plan.id then plan2 else p })

/-! ### Mess ratings: `add_rating`, `has_user_rated`, `update_rating` -/

/-- `Mess.has_user_rated`: `user_id in [str(uid) for uid in self.RatedBy]`. -/
def MessDoc.has_user_rated (m : MessDoc) (userId : String) : Bool :=
  m.ratedBy.contains userId

/-- `Mess.add_rating`: refuse a second rating from the same user, otherwise
append the value to `Ratings` and the user id to `RatedBy`. -/
def MessDoc.add_rating (m : MessDoc) (userId : String) (rating : Int) :
    Bool × MessDoc :=
  if m.ratedBy.contains userId then (false, m)
  else
    (true,
      { m with ratings := m.ratings ++ [.rint rating],
               ratedBy := m.ratedBy ++ [userId] })

/-- `PUT /rating/{mess_id}/{user_id}` (`update_rating` in
`app/routers/mess_router.py`): returns the new average and total on success. -/
def update_rating (db : DB) (messId userId : String) (rating : Int) :
    Except HTTPError (ℚ × Nat) × DB :=
  if rating < 1 || rating > 5 then
    (.error ⟨400, "Rating must be between 1 and 5"⟩, db)
  else
    match findMess db messId with
    | none => (.error ⟨404, "Mess not found"⟩, db)
    | some mess =>
      if mess.has_user_rated userId then
        (.error ⟨400, "You have already rated this mess"⟩, db)
      else
        let m2 := (mess.add_rating userId rating).2
        (.ok (calculate_average_rating m2.ratings, m2.ratings.length),
          { db with messes := db.messes.map fun m => if m.id == mess.id then m2 else m })

/-! ### `create_checkin` (`app/routers/checkin_router.py`) -/

/-- The duplicate query of `create_checkin`: same meal pass, same meal type,
`created_at` within `[today_start, today_end)` where `today_start` is midnight
of the day containing `now`. -/
def checkinDupPred (now : Nat) (mpId : String) (mealType : CheckMeal)
    (c : CheckInDoc) : Bool :=
  c.mealPassId == mpId && c.mealType == mealType &&
    decide (now / secondsPerDay * secondsPerDay ≤ c.createdAt) &&
    decide (c.createdAt < now / secondsPerDay * secondsPerDay + secondsPerDay)

/-- `POST /api/checkin/{mess_id}` (`create_checkin`).  `now` is
`datetime.utcnow()`; the inserted check-in's `created_at` defaults to `now`.
The `mess_id` path parameter is unused by the handler, as in the code. -/
def create_checkin (now : Nat) (newId : String) (db : DB) (messIdPath : String)
    (mealPassId : String) (mealType : CheckMeal) :
    Except HTTPError CheckInDoc × DB :=
  match findPassById db mealPassId with
  | none => (.error ⟨404, "Meal pass not found"⟩, db)
  | some mp =>
    if !mp.isActive || mp.isBlocked then
      (.error ⟨403, "Meal pass is inactive or blocked"⟩, db)
    else
      match findSubscriptionById db mp.subscriptionId with
      | none => (.error ⟨404, "Subscription not found"⟩, db)
      | some sub =>
        if sub.status != .Active then
          (.error ⟨403, "Subscription is not active"⟩, db)
        else
          match db.checkIns.find? (checkinDupPred now mp.id mealType) with
          | some _ => (.error ⟨400, "Already checked in for this meal today"⟩, db)
          | none =>
            let checkin : CheckInDoc :=
              { id := newId, userId := mp.userId, messId := mp.messId,
                mealPassId := mp.id, mealType := mealType,
                status := .success, createdAt := now }
            (.ok checkin, { db with checkIns := db.checkIns ++ [checkin] })

/-! ### `activate_subscription` (`app/routers/subscription_router.py`) -/

/-- `UpdateSubscriptionRequest`: optional status and optional messId. -/
structure UpdateSubscriptionRequest where
  status : Option SubStatus
  messId : Option String
deriving DecidableEq, Repr

/-- `PUT /api/subscriptions/{subscription_id}/activate`
(`activate_subscription`).  `if payload.messId` is Python truthiness, so an
empty string skips the ownership check just like `None`. -/
def activate_subscription (now : Nat) (db : DB) (subscriptionId : String)
    (payload : UpdateSubscriptionRequest) :
    Except HTTPError UserSubscriptionDoc × DB :=
  match findSubscriptionById db subscriptionId with
  | none => (.error ⟨404, "Subscription not found"⟩, db)
  | some sub =>
    match findPlan db sub.planId with
    | none => (.error ⟨404, "Plan not found"⟩, db)
    | some plan =>
      if (match payload.messId with
          | some m => !(m == "") && plan.messId != m
          | none => false) then
        (.error ⟨403, "Not authorized to update this subscription"⟩, db)
      else
        let sub1 :=
          match payload.status with
          | none => sub
          | some st =>
            let s := { sub with status := st }
            match st with
            | .Cancelled => { s with endDate := now }
            | .Expired => { s with endDate := now }
            | .Active =>
              { s with startDate := now,
                       endDate := now + durationDays plan.duration * secondsPerDay }
            | _ => s
        let sub2 := { sub1 with updatedAt := now }
        (.ok sub2,
          { db with subscriptions :=
              db.subscriptions.map fun s => if s.id == sub.id then sub2 else s })

/-! ### Concrete fixtures used by the witnesses -/

/-- A regular user. -/
def sampleUser : UserDoc :=
  { id := "u1", username := "alice", email := "alice@example.com",
    password := "hashed", loginRole := .user, userID := 1 }

/-- A mess-owner user. -/
def sampleOwner : UserDoc :=
  { id := "m1", username := "owner", email := "owner@example.com",
    password := "hashed", loginRole := .messOwner, userID := 2 }

/-- An active weekly plan owned by `sampleOwner`. -/
def samplePlan : SubscriptionPlanDoc :=
  { id := "p1", messId := "m1", planName := "Basic", duration := .Weekly,
    mealType := .Veg, price := 100, description := "desc", isActive := true,
    createdAt := 0, updatedAt := 0 }

/-- A store with the two users and the plan, and empty other collections. -/
def sampleDB : DB :=
  { users := [sampleUser, sampleOwner], plans := [samplePlan],
    subscriptions := [], mealPasses := [], checkIns := [], messes := [] }

/-- One execution environment for `subscribe_to_plan` (hash modelled by the
identity, pass save succeeding). -/
def sampleEnv : SubscribeEnv :=
  { sha256Hex := fun s => s, now := 1000, qrNow := 1001,
    newSubId := "s1", newPassId := "mp1", passSaveFails := false }

/-! ### C1 -/

/-- C1: a successful `subscribe_to_plan` (user exists and is a regular user,
plan exists and is active, no prior subscription of this user to this plan,
meal-pass save succeeding) persists a `UserSubscription` with
`startDate = now`, `endDate = startDate + 1/7/30 days` for
Daily/Weekly/Monthly, status `Pending`, and a `MealPass` with
`validFrom = startDate`, `validTill = endDate` and `qrCode` equal to the
SHA-256 hex digest of the sorted-key JSON serialization of
`{userId, subscriptionId, planId, messId, mealType, timestamp}`. -/
theorem subscribe_success_issues_pass (env : SubscribeEnv) (db : DB)
    (planId userId : String) (user : UserDoc) (plan : SubscriptionPlanDoc)
    (hu : findUser db userId = some user)
    (hreg : user.is_regular_user = true)
    (hp : findPlan db planId = some plan)
    (hact : plan.isActive = true)
    (hnosub : findSubByUserPlan db user.id plan.id = none)
    (hsave : env.passSaveFails = false) :
    ∃ sub pass,
      subscribe_to_plan env db planId userId =
        (.ok sub, { db with subscriptions := db.subscriptions ++ [sub],
                            mealPasses := db.mealPasses ++ [pass] }) ∧
      sub.startDate = env.now ∧
      sub.endDate = env.now +
        (match plan.duration with
          | .Daily => 1
          | .Weekly => 7
          | .Monthly => 30) * secondsPerDay ∧
      sub.status = .Pending ∧
      pass.validFrom = some sub.startDate ∧
      pass.validTill = some sub.endDate ∧
      pass.qrCode = env.sha256Hex
        (qrPayloadJson user.id sub.id plan.id plan.messId plan.mealType env.qrNow) := by
  simp only [subscribe_to_plan, hu, hreg, hp, hact, hnosub, hsave, Bool.not_true,
    Bool.false_eq_true, if_false]
  exact ⟨_, _, rfl, rfl, rfl, rfl, rfl, rfl, rfl⟩

/-- Witness for C1 on the concrete fixtures. -/
theorem subscribe_success_issues_pass_witness :
    ∃ sub pass,
      subscribe_to_plan sampleEnv sampleDB "p1" "u1" =
        (.ok sub, { sampleDB with
                      subscriptions := sampleDB.subscriptions ++ [sub],
                      mealPasses := sampleDB.mealPasses ++ [pass] }) ∧
      sub.startDate = sampleEnv.now ∧
      sub.endDate = sampleEnv.now +
        (match samplePlan.duration with
          | .Daily => 1
          | .Weekly => 7
          | .Monthly => 30) * secondsPerDay ∧
      sub.status = .Pending ∧
      pass.validFrom = some sub.startDate ∧
      pass.validTill = some sub.endDate ∧
      pass.qrCode = sampleEnv.sha256Hex
        (qrPayloadJson sampleUser.id sub.id samplePlan.id samplePlan.messId
          samplePlan.mealType sampleEnv.qrNow) :=
  subscribe_success_issues_pass sampleEnv sampleDB "p1" "u1" sampleUser samplePlan
    rfl rfl rfl rfl rfl rfl

/-! ### C4 -/

/-- C4: for an existing regular user and an existing active plan,
`subscribe_to_plan` fails with HTTP 400 ("You have already subscribed to this
plan before. Each plan can only be subscribed once.") leaving the store
unchanged if and only if a `UserSubscription` with the same `userId` and
`planId` already exists. -/
theorem subscribe_duplicate_rejected (env : SubscribeEnv) (db : DB)
    (planId userId : String) (user : UserDoc) (plan : SubscriptionPlanDoc)
    (hu : findUser db userId = some user)
    (hreg : user.is_regular_user = true)
    (hp : findPlan db planId = some plan)
    (hact : plan.isActive = true) :
    subscribe_to_plan env db planId userId =
        (.error ⟨400, "You have already subscribed to this plan before. Each plan can only be subscribed once."⟩, db)
      ↔ ∃ s ∈ db.subscriptions, s.userId = user.id ∧ s.planId = plan.id := by
  simp only [subscribe_to_plan, hu, hreg, hp, hact, Bool.not_true, Bool.false_eq_true,
    if_false]
  cases hex : findSubByUserPlan db user.id plan.id with
  | some s =>
    have hpred := List.find?_some hex
    have hmem := List.mem_of_find?_eq_some hex
    simp only [Bool.and_eq_true, beq_iff_eq] at hpred
    simp only [true_iff]
    exact ⟨s, hmem, hpred.1, hpred.2⟩
  | none =>
    simp only [findSubByUserPlan, List.find?_eq_none] at hex
    constructor
    · intro h
      exfalso
      have h1 := congrArg Prod.fst h
      by_cases hps : env.passSaveFails = true <;> simp [hps] at h1
    · rintro ⟨s, hmem, h1, h2⟩
      exact absurd
        (show (s.userId == user.id && s.planId == plan.id) = true by simp [h1, h2])
        (hex s hmem)

/-- Witness fixtures for C4: the same store with an existing subscription of
`sampleUser` to `samplePlan`. -/
def sampleSub : UserSubscriptionDoc :=
  { id := "s0", userId := "u1", planId := "p1", startDate := 500,
    endDate := 500 + 7 * secondsPerDay, status := .Pending,
    paymentStatus := .Pending, createdAt := 500, updatedAt := 500 }

/-- `sampleDB` plus `sampleSub`. -/
def sampleSubscribedDB : DB :=
  { sampleDB with subscriptions := [sampleSub] }

/-- Witness for C4 on the concrete fixtures. -/
theorem subscribe_duplicate_rejected_witness :
    subscribe_to_plan sampleEnv sampleSubscribedDB "p1" "u1" =
        (.error ⟨400, "You have already subscribed to this plan before. Each plan can only be subscribed once."⟩, sampleSubscribedDB)
      ↔ ∃ s ∈ sampleSubscribedDB.subscriptions,
          s.userId = sampleUser.id ∧ s.planId = samplePlan.id :=
  subscribe_duplicate_rejected sampleEnv sampleSubscribedDB "p1" "u1"
    sampleUser samplePlan rfl rfl rfl rfl

/-! ### C9 -/

/-- C9: when persisting the `MealPass` raises, `subscribe_to_plan` swallows
the exception: it still returns the already-saved subscription as a success,
the subscription stays persisted, and no meal pass is written (the caller gets
no indication of the failure). -/
theorem subscribe_pass_save_failure_swallowed (env : SubscribeEnv) (db : DB)
    (planId userId : String) (user : UserDoc) (plan : SubscriptionPlanDoc)
    (hu : findUser db userId = some user)
    (hreg : user.is_regular_user = true)
    (hp : findPlan db planId = some plan)
    (hact : plan.isActive = true)
    (hnosub : findSubByUserPlan db user.id plan.id = none)
    (hsave : env.passSaveFails = true) :
    ∃ sub,
      (subscribe_to_plan env db planId userId).1 = .ok sub ∧
      (subscribe_to_plan env db planId userId).2.subscriptions =
        db.subscriptions ++ [sub] ∧
      (subscribe_to_plan env db planId userId).2.mealPasses = db.mealPasses := by
  simp only [subscribe_to_plan, hu, hreg, hp, hact, hnosub, hsave, Bool.not_true,
    Bool.false_eq_true, if_false, if_true]
  exact ⟨_, rfl, rfl, trivial⟩

/-- Environment where the meal-pass save raises. -/
def sampleFailEnv : SubscribeEnv :=
  { sampleEnv with passSaveFails := true }

/-- Witness for C9 on the concrete fixtures. -/
theorem subscribe_pass_save_failure_swallowed_witness :
    ∃ sub,
      (subscribe_to_plan sampleFailEnv sampleDB "p1" "u1").1 = .ok sub ∧
      (subscribe_to_plan sampleFailEnv sampleDB "p1" "u1").2.subscriptions =
        sampleDB.subscriptions ++ [sub] ∧
      (subscribe_to_plan sampleFailEnv sampleDB "p1" "u1").2.mealPasses =
        sampleDB.mealPasses :=
  subscribe_pass_save_failure_swallowed sampleFailEnv sampleDB "p1" "u1"
    sampleUser samplePlan rfl rfl rfl rfl rfl rfl

/-! ### C3 -/

/-- C3: with all four fields non-empty and the password at most 128 chars,
`AuthService.signup` raises `DuplicateError` iff a user with the email exists
or, failing that, a user with the username exists (email checked first); when
neither exists a new user with the bcrypt-hashed password is inserted and the
(user, token) pair is returned. -/
theorem signup_duplicate_check (hashPassword : String → String)
    (createToken : String → String → String) (newId : String) (nowMs : Int)
    (db : DB) (username email password : String) (role : LoginRole)
    (hU : username ≠ "") (hE : email ≠ "") (hP : password ≠ "")
    (hlen : password.length ≤ 128) :
    ((∃ f v, (signup hashPassword createToken newId nowMs db username email password role).1
        = .error (.duplicateErr f v)) ↔
      (∃ u ∈ db.users, u.email = email) ∨ (∃ u ∈ db.users, u.username = username)) ∧
    ((∃ u ∈ db.users, u.email = email) →
      signup hashPassword createToken newId nowMs db username email password role
        = (.error (.duplicateErr "Email" email), db)) ∧
    (¬(∃ u ∈ db.users, u.email = email) → (∃ u ∈ db.users, u.username = username) →
      signup hashPassword createToken newId nowMs db username email password role
        = (.error (.duplicateErr "Username" username), db)) ∧
    (¬(∃ u ∈ db.users, u.email = email) → ¬(∃ u ∈ db.users, u.username = username) →
      ∃ u, signup hashPassword createToken newId nowMs db username email password role
          = (.ok (u, createToken newId role.value), { db with users := db.users ++ [u] }) ∧
        u.password = hashPassword password ∧
        u.username = username ∧ u.email = email ∧ u.loginRole = role) := by
  have hcond : (username = "" || email = "" || password = "") = false := by
    simp [hU, hE, hP]
  have hlen' : ¬(password.length > 128) := by omega
  have hEmailIff : (db.users.find? fun u => u.email == email).isSome = true ↔
      ∃ u ∈ db.users, u.email = email := by
    rw [List.find?_isSome]
    simp
  have hUserIff : (db.users.find? fun u => u.username == username).isSome = true ↔
      ∃ u ∈ db.users, u.username = username := by
    rw [List.find?_isSome]
    simp
  simp only [signup, hcond, Bool.false_eq_true, if_false, hlen', if_true]
  cases hfe : (db.users.find? fun u => u.email == email) with
  | some u =>
    have He : ∃ u ∈ db.users, u.email = email := by
      rw [← hEmailIff, hfe]
      rfl
    refine ⟨?_, ?_, ?_, ?_⟩
    · exact ⟨fun _ => Or.inl He, fun _ => ⟨"Email", email, rfl⟩⟩
    · intro _; rfl
    · intro hne _; exact absurd He hne
    · intro hne _; exact absurd He hne
  | none =>
    have Hne : ¬∃ u ∈ db.users, u.email = email := by
      rw [← hEmailIff, hfe]
      simp
    cases hfu : (db.users.find? fun u => u.username == username) with
    | some u =>
      have Hu : ∃ u ∈ db.users, u.username = username := by
        rw [← hUserIff, hfu]
        rfl
      refine ⟨?_, ?_, ?_, ?_⟩
      · exact ⟨fun _ => Or.inr Hu, fun _ => ⟨"Username", username, rfl⟩⟩
      · intro he; exact absurd he Hne
      · intro _ _; rfl
      · intro _ hnu; exact absurd Hu hnu
    | none =>
      have Hnu : ¬∃ u ∈ db.users, u.username = username := by
        rw [← hUserIff, hfu]
        simp
      refine ⟨?_, ?_, ?_, ?_⟩
      · constructor
        · rintro ⟨f, v, hfv⟩
          exact Except.noConfusion hfv
        · rintro (h | h)
          · exact absurd h Hne
          · exact absurd h Hnu
      · intro he; exact absurd he Hne
      · intro _ hu; exact absurd hu Hnu
      · intro _ _
        exact ⟨_, rfl, rfl, rfl, rfl, rfl⟩

/-- Witness for C3: fresh signup into `sampleDB` (no duplicate), showing the
success branch of the theorem at concrete inputs. -/
theorem signup_duplicate_check_witness :
    ((∃ f v, (signup (fun s => s ++ "#h") (fun i r => i ++ r) "u9" 42 sampleDB
        "carol" "carol@example.com" "pw" .user).1 = .error (.duplicateErr f v)) ↔
      (∃ u ∈ sampleDB.users, u.email = "carol@example.com") ∨
        (∃ u ∈ sampleDB.users, u.username = "carol")) ∧
    ((∃ u ∈ sampleDB.users, u.email = "carol@example.com") →
      signup (fun s => s ++ "#h") (fun i r => i ++ r) "u9" 42 sampleDB
          "carol" "carol@example.com" "pw" .user
        = (.error (.duplicateErr "Email" "carol@example.com"), sampleDB)) ∧
    (¬(∃ u ∈ sampleDB.users, u.email = "carol@example.com") →
      (∃ u ∈ sampleDB.users, u.username = "carol") →
      signup (fun s => s ++ "#h") (fun i r => i ++ r) "u9" 42 sampleDB
          "carol" "carol@example.com" "pw" .user
        = (.error (.duplicateErr "Username" "carol"), sampleDB)) ∧
    (¬(∃ u ∈ sampleDB.users, u.email = "carol@example.com") →
      ¬(∃ u ∈ sampleDB.users, u.username = "carol") →
      ∃ u, signup (fun s => s ++ "#h") (fun i r => i ++ r) "u9" 42 sampleDB
            "carol" "carol@example.com" "pw" .user
          = (.ok (u, (fun i r => i ++ r) "u9" (LoginRole.user).value),
             { sampleDB with users := sampleDB.users ++ [u] }) ∧
        u.password = (fun s => s ++ "#h") "pw" ∧
        u.username = "carol" ∧ u.email = "carol@example.com" ∧ u.loginRole = .user) :=
  signup_duplicate_check (fun s => s ++ "#h") (fun i r => i ++ r) "u9" 42 sampleDB
    "carol" "carol@example.com" "pw" .user (by decide) (by decide) (by decide)
    (by decide)

/-! ### C6 -/

/-- C6: on an existing plan, `update_plan` writes exactly the non-`None`
payload fields and refreshes `updated_at` iff the requesting user exists, is a
mess owner, and `str(plan.messId)` equals the requesting `userId`; otherwise it
raises HTTP 403 ("You can only update your own plans") and leaves the store
unchanged. -/
theorem update_plan_ownership (now : Nat) (db : DB) (planId : String)
    (payload : UpdatePlanRequest) (plan : SubscriptionPlanDoc)
    (hp : findPlan db planId = some plan) :
    ((∃ u, findUser db payload.userId = some u ∧ u.is_mess_owner = true ∧
        plan.messId = payload.userId) →
      update_plan now db planId payload =
        (.ok (applyPlanUpdate plan payload now),
         { db with plans := db.plans.map fun p =>
             if p.id == plan.id then applyPlanUpdate plan payload now else p })) ∧
    (¬(∃ u, findUser db payload.userId = some u ∧ u.is_mess_owner = true ∧
        plan.messId = payload.userId) →
      update_plan now db planId payload =
        (.error ⟨403, "You can only update your own plans"⟩, db)) := by
  simp only [update_plan, hp]
  cases hu : findUser db payload.userId with
  | none =>
    refine ⟨?_, fun _ => rfl⟩
    rintro ⟨u, hu2, _, _⟩
    exact Option.noConfusion hu2
  | some user =>
    by_cases hown : user.is_mess_owner = true
    · by_cases hmid : plan.messId = payload.userId
      · have hcond : (!user.is_mess_owner || plan.messId != payload.userId) = false := by
          simp [hown, hmid]
        simp only [hcond, Bool.false_eq_true, if_false]
        constructor
        · intro _
          first
          | rfl
          | trivial
        · intro hne
          exact absurd ⟨user, rfl, hown, hmid⟩ hne
      · have hcond : (!user.is_mess_owner || plan.messId != payload.userId) = true := by
          simp [hmid]
        simp only [hcond, if_true]
        constructor
        · rintro ⟨u, hu2, _, hm⟩
          injection hu2 with h
          subst h
          exact absurd hm hmid
        · intro _
          first
          | rfl
          | trivial
    · have hcond : (!user.is_mess_owner || plan.messId != payload.userId) = true := by
        simp only [Bool.not_eq_true] at hown
        simp [hown]
      simp only [hcond, if_true]
      constructor
      · rintro ⟨u, hu2, ho, _⟩
        injection hu2 with h
        subst h
        exact absurd ho hown
      · intro _
        first
        | rfl
        | trivial

/-- Payload for the C6 witness: the owner updates the plan's price. -/
def samplePayload : UpdatePlanRequest :=
  { planName := none, duration := none, mealType := none, price := some 120,
    description := none, isActive := none, userId := "m1" }

/-- Witness for C6 on the concrete fixtures (authorized branch). -/
theorem update_plan_ownership_witness :
    ((∃ u, findUser sampleDB samplePayload.userId = some u ∧
        u.is_mess_owner = true ∧ samplePlan.messId = samplePayload.userId) →
      update_plan 2000 sampleDB "p1" samplePayload =
        (.ok (applyPlanUpdate samplePlan samplePayload 2000),
         { sampleDB with plans := sampleDB.plans.map fun p =>
             if p.id == samplePlan.id then applyPlanUpdate samplePlan samplePayload 2000
             else p })) ∧
    (¬(∃ u, findUser sampleDB samplePayload.userId = some u ∧
        u.is_mess_owner = true ∧ samplePlan.messId = samplePayload.userId) →
      update_plan 2000 sampleDB "p1" samplePayload =
        (.error ⟨403, "You can only update your own plans"⟩, sampleDB)) :=
  update_plan_ownership 2000 sampleDB "p1" samplePayload samplePlan rfl

/-! ### C10 -/

/-- C10: `activate_subscription` with status `Active` (on an existing
subscription whose plan exists, with the ownership check passing) sets the
subscription's `startDate` to the current time and recomputes `endDate` from
the plan duration (1, 7 or 30 days), while the meal-pass collection is left
entirely unchanged — every pass keeps the `validFrom`/`validTill` assigned at
subscribe time. -/
theorem activate_active_keeps_passes (now : Nat) (db : DB)
    (subscriptionId : String) (payload : UpdateSubscriptionRequest)
    (sub : UserSubscriptionDoc) (plan : SubscriptionPlanDoc)
    (hs : findSubscriptionById db subscriptionId = some sub)
    (hp : findPlan db sub.planId = some plan)
    (hauth : (match payload.messId with
              | some m => !(m == "") && plan.messId != m
              | none => false) = false)
    (hst : payload.status = some .Active) :
    ∃ sub2,
      (activate_subscription now db subscriptionId payload).1 = .ok sub2 ∧
      sub2.status = .Active ∧
      sub2.startDate = now ∧
      sub2.endDate = now +
        (match plan.duration with
          | .Daily => 1
          | .Weekly => 7
          | .Monthly => 30) * secondsPerDay ∧
      (activate_subscription now db subscriptionId payload).2.mealPasses =
        db.mealPasses := by
  simp only [activate_subscription, hs, hp, hauth, hst, Bool.false_eq_true, if_false]
  exact ⟨_, rfl, rfl, rfl, rfl, trivial⟩

/-- Request activating `sampleSub` with no messId check. -/
def sampleActivate : UpdateSubscriptionRequest :=
  { status := some .Active, messId := none }

/-- Store for the C10 witness: the subscription and a meal pass issued for it. -/
def samplePass : MealPassDoc :=
  { id := "mp0", userId := "u1", subscriptionId := "s0", messId := "m1",
    qrCode := "qr0", isActive := true, isBlocked := false, blockReason := none,
    validFrom := some 500, validTill := some (500 + 7 * secondsPerDay) }

/-- `sampleSubscribedDB` plus `samplePass`. -/
def samplePassDB : DB :=
  { sampleSubscribedDB with mealPasses := [samplePass] }

/-- Witness for C10 on the concrete fixtures. -/
theorem activate_active_keeps_passes_witness :
    ∃ sub2,
      (activate_subscription 9000 samplePassDB "s0" sampleActivate).1 = .ok sub2 ∧
      sub2.status = .Active ∧
      sub2.startDate = 9000 ∧
      sub2.endDate = 9000 +
        (match samplePlan.duration with
          | .Daily => 1
          | .Weekly => 7
          | .Monthly => 30) * secondsPerDay ∧
      (activate_subscription 9000 samplePassDB "s0" sampleActivate).2.mealPasses =
        samplePassDB.mealPasses :=
  activate_active_keeps_passes 9000 samplePassDB "s0" sampleActivate
    sampleSub samplePlan rfl rfl rfl rfl

/-! ### C7 -/

/-- The C7 invariant: `Ratings` and `RatedBy` have equal length and no user id
occurs twice in `RatedBy` (as strings). -/
def messInv (m : MessDoc) : Prop :=
  m.ratings.length = m.ratedBy.length ∧ m.ratedBy.Nodup

/-- `contains = false` gives non-membership. -/
lemma not_mem_of_contains_false {l : List String} {a : String}
    (h : l.contains a = false) : a ∉ l := by
  intro hm
  have h2 : l.contains a = true := List.elem_iff.mpr hm
  rw [h] at h2
  exact Bool.noConfusion h2

/-- Appending one fresh element preserves `Nodup`. -/
lemma nodup_append_fresh {l : List String} {a : String}
    (hn : l.Nodup) (hna : a ∉ l) : (l ++ [a]).Nodup := by
  refine List.Nodup.append hn (List.nodup_singleton a) ?_
  intro x hx hx2
  simp only [List.mem_singleton] at hx2
  subst hx2
  exact hna hx

/-- `add_rating` preserves the C7 invariant. -/
lemma add_rating_preserves_inv (m : MessDoc) (userId : String) (rating : Int)
    (hinv : messInv m) : messInv (m.add_rating userId rating).2 := by
  unfold MessDoc.add_rating
  cases hc : m.ratedBy.contains userId with
  | true => simpa using hinv
  | false =>
    simp only [Bool.false_eq_true, if_false]
    refine ⟨?_, ?_⟩
    · simp [hinv.1]
    · exact nodup_append_fresh hinv.2 (not_mem_of_contains_false hc)

/-- C7: the rating operations keep `Ratings` and `RatedBy` aligned and
raters unique: `add_rating` returns `False` and changes nothing when the user
already rated, otherwise appends exactly one element to each list, and in both
cases preserves the invariant; the `update_rating` endpoint rejects with HTTP
400 a rating from a user who has already rated and any value outside `1..5`,
and preserves the invariant on every stored mess. -/
theorem mess_rating_invariant (db : DB) (m : MessDoc)
    (messId userId : String) (rating : Int) :
    (m.ratedBy.contains userId = true → m.add_rating userId rating = (false, m)) ∧
    (m.ratedBy.contains userId = false →
      (m.add_rating userId rating).1 = true ∧
      (m.add_rating userId rating).2.ratings = m.ratings ++ [.rint rating] ∧
      (m.add_rating userId rating).2.ratedBy = m.ratedBy ++ [userId]) ∧
    (messInv m → messInv (m.add_rating userId rating).2) ∧
    ((rating < 1 ∨ rating > 5) →
      update_rating db messId userId rating =
        (.error ⟨400, "Rating must be between 1 and 5"⟩, db)) ∧
    (∀ mess, findMess db messId = some mess → mess.has_user_rated userId = true →
      1 ≤ rating → rating ≤ 5 →
      update_rating db messId userId rating =
        (.error ⟨400, "You have already rated this mess"⟩, db)) ∧
    ((∀ mess ∈ db.messes, messInv mess) →
      ∀ mess ∈ (update_rating db messId userId rating).2.messes, messInv mess) := by
  refine ⟨?_, ?_, add_rating_preserves_inv m userId rating, ?_, ?_, ?_⟩
  · intro h
    have hm : userId ∈ m.ratedBy := List.elem_iff.mp h
    simp [MessDoc.add_rating, h, hm]
  · intro h
    have hm : userId ∉ m.ratedBy := not_mem_of_contains_false h
    simp [MessDoc.add_rating, h, hm]
  · intro h
    have hb : (rating < 1 || rating > 5) = true := by
      rcases h with h | h <;> simp [h]
    simp [update_rating, hb]
  · intro mess hfind hrated h1 h5
    have hb : (rating < 1 || rating > 5) = false := by
      simp
      omega
    simp [update_rating, hb, hfind, hrated]
  · intro hall mess hmem
    unfold update_rating at hmem
    by_cases hb : (rating < 1 || rating > 5) = true
    · simp only [hb, if_true] at hmem
      exact hall mess hmem
    · simp only [hb, if_false] at hmem
      cases hfind : findMess db messId with
      | none =>
        simp only [hfind] at hmem
        exact hall mess hmem
      | some mess0 =>
        simp only [hfind] at hmem
        by_cases hr : mess0.has_user_rated userId = true
        · simp only [hr, if_true] at hmem
          exact hall mess hmem
        · simp [hr, List.mem_map] at hmem
          obtain ⟨a, ha, hEq⟩ := hmem
          subst hEq
          by_cases hid : a.id = mess0.id
          · rw [if_pos hid]
            exact add_rating_preserves_inv mess0 userId rating
              (hall mess0 (List.mem_of_find?_eq_some hfind))
          · rw [if_neg hid]
            exact hall a ha

/-- A mess already rated once by user `u2`. -/
def sampleMess : MessDoc :=
  { id := "x1", ratings := [.rint 4], ratedBy := ["u2"] }

/-- Store for the C7 witness. -/
def sampleMessDB : DB :=
  { sampleDB with messes := [sampleMess] }

/-- Witness for C7 on the concrete fixtures. -/
theorem mess_rating_invariant_witness :
    (sampleMess.ratedBy.contains "u2" = true →
      sampleMess.add_rating "u2" 5 = (false, sampleMess)) ∧
    (sampleMess.ratedBy.contains "u2" = false →
      (sampleMess.add_rating "u2" 5).1 = true ∧
      (sampleMess.add_rating "u2" 5).2.ratings = sampleMess.ratings ++ [.rint 5] ∧
      (sampleMess.add_rating "u2" 5).2.ratedBy = sampleMess.ratedBy ++ ["u2"]) ∧
    (messInv sampleMess → messInv (sampleMess.add_rating "u2" 5).2) ∧
    ((5 < (1 : Int) ∨ 5 > (5 : Int)) →
      update_rating sampleMessDB "x1" "u2" 5 =
        (.error ⟨400, "Rating must be between 1 and 5"⟩, sampleMessDB)) ∧
    (∀ mess, findMess sampleMessDB "x1" = some mess →
      mess.has_user_rated "u2" = true → 1 ≤ (5 : Int) → (5 : Int) ≤ 5 →
      update_rating sampleMessDB "x1" "u2" 5 =
        (.error ⟨400, "You have already rated this mess"⟩, sampleMessDB)) ∧
    ((∀ mess ∈ sampleMessDB.messes, messInv mess) →
      ∀ mess ∈ (update_rating sampleMessDB "x1" "u2" 5).2.messes, messInv mess) :=
  mess_rating_invariant sampleMessDB sampleMess "x1" "u2" 5

/-! ### C8 -/

/-- The C8 invariant: no two check-ins share meal pass, meal type and UTC day. -/
def checkinUnique (l : List CheckInDoc) : Prop :=
  l.Pairwise fun a b =>
    a.mealPassId = b.mealPassId → a.mealType = b.mealType →
      a.createdAt / secondsPerDay ≠ b.createdAt / secondsPerDay

/-- The midnight-window test of `create_checkin` is the same-UTC-day test. -/
lemma checkin_window_iff (now t : Nat) :
    (now / secondsPerDay * secondsPerDay ≤ t ∧
      t < now / secondsPerDay * secondsPerDay + secondsPerDay) ↔
    t / secondsPerDay = now / secondsPerDay := by
  unfold secondsPerDay
  omega

/-- `checkinDupPred` characterised in terms of the claim's key. -/
lemma checkinDupPred_iff (now : Nat) (mpId : String) (mealType : CheckMeal)
    (c : CheckInDoc) :
    checkinDupPred now mpId mealType c = true ↔
      (c.mealPassId = mpId ∧ c.mealType = mealType ∧
        c.createdAt / secondsPerDay = now / secondsPerDay) := by
  unfold checkinDupPred
  rw [Bool.and_eq_true, Bool.and_eq_true, Bool.and_eq_true]
  simp only [beq_iff_eq, decide_eq_true_eq]
  constructor
  · rintro ⟨⟨⟨h1, h2⟩, h3⟩, h4⟩
    exact ⟨h1, h2, (checkin_window_iff now c.createdAt).mp ⟨h3, h4⟩⟩
  · rintro ⟨h1, h2, h3⟩
    have hw := (checkin_window_iff now c.createdAt).mpr h3
    exact ⟨⟨⟨h1, h2⟩, hw.1⟩, hw.2⟩

/-- C8: for a valid active pass with an active subscription, `create_checkin`
returns HTTP 400 ("Already checked in for this meal today") and inserts
nothing when a check-in with the same meal pass and meal type already exists
in the current UTC day; otherwise it inserts exactly one `success` check-in
for the pass's user and mess, stamped `now`; and the per-day uniqueness
invariant over the check-in collection is preserved. -/
theorem create_checkin_daily_unique (now : Nat) (newId : String) (db : DB)
    (messIdPath mealPassId : String) (mealType : CheckMeal)
    (mp : MealPassDoc) (sub : UserSubscriptionDoc)
    (hmp : findPassById db mealPassId = some mp)
    (hact : mp.isActive = true) (hbl : mp.isBlocked = false)
    (hsub : findSubscriptionById db mp.subscriptionId = some sub)
    (hst : sub.status = .Active) :
    ((∃ c ∈ db.checkIns, c.mealPassId = mp.id ∧ c.mealType = mealType ∧
        c.createdAt / secondsPerDay = now / secondsPerDay) →
      create_checkin now newId db messIdPath mealPassId mealType =
        (.error ⟨400, "Already checked in for this meal today"⟩, db)) ∧
    (¬(∃ c ∈ db.checkIns, c.mealPassId = mp.id ∧ c.mealType = mealType ∧
        c.createdAt / secondsPerDay = now / secondsPerDay) →
      ∃ c, create_checkin now newId db messIdPath mealPassId mealType =
          (.ok c, { db with checkIns := db.checkIns ++ [c] }) ∧
        c.userId = mp.userId ∧ c.messId = mp.messId ∧ c.mealPassId = mp.id ∧
        c.mealType = mealType ∧ c.status = .success ∧ c.createdAt = now) ∧
    (checkinUnique db.checkIns →
      checkinUnique (create_checkin now newId db messIdPath mealPassId mealType).2.checkIns) := by
  have hcond : (!mp.isActive || mp.isBlocked) = false := by
    simp [hact, hbl]
  have hstcond : (sub.status != SubStatus.Active) = false := by
    simp [hst]
  cases hfindc : db.checkIns.find? (checkinDupPred now mp.id mealType) with
  | some c0 =>
    have hmem := List.mem_of_find?_eq_some hfindc
    have hpred := (checkinDupPred_iff now mp.id mealType c0).mp (List.find?_some hfindc)
    simp only [create_checkin, hmp, hcond, hsub, hstcond, hfindc, Bool.false_eq_true,
      if_false]
    refine ⟨fun _ => ?_, fun hne => absurd ⟨c0, hmem, hpred⟩ hne, fun h => h⟩
    first
    | rfl
    | trivial
  | none =>
    rw [List.find?_eq_none] at hfindc
    simp only [create_checkin, hmp, hcond, hsub, hstcond, Bool.false_eq_true, if_false]
    rw [List.find?_eq_none.mpr (fun x hx => hfindc x hx)]
    refine ⟨?_, ?_, ?_⟩
    · rintro ⟨c, hcmem, hc⟩
      exact absurd ((checkinDupPred_iff now mp.id mealType c).mpr hc) (hfindc c hcmem)
    · intro _
      exact ⟨_, rfl, rfl, rfl, rfl, rfl, rfl, rfl⟩
    · intro hinv
      unfold checkinUnique at hinv ⊢
      rw [List.pairwise_append]
      refine ⟨hinv, List.pairwise_singleton _ _, ?_⟩
      intro a ha b hb
      simp only [List.mem_singleton] at hb
      subst hb
      intro h1 h2
      have hnp := hfindc a ha
      rw [checkinDupPred_iff] at hnp
      push_neg at hnp
      intro hday
      exact hnp h1 h2 hday

/-- Check-in fixtures: an existing check-in for `samplePass` at breakfast on
day 0. -/
def sampleCheckIn : CheckInDoc :=
  { id := "c0", userId := "u1", messId := "m1", mealPassId := "mp0",
    mealType := .breakfast, status := .success, createdAt := 600 }

/-- `samplePassDB` with the subscription active and one breakfast check-in. -/
def sampleCheckinDB : DB :=
  { samplePassDB with
      subscriptions := [{ sampleSub with status := .Active }],
      checkIns := [sampleCheckIn] }

/-- Witness for C8 on the concrete fixtures. -/
theorem create_checkin_daily_unique_witness :
    ((∃ c ∈ sampleCheckinDB.checkIns, c.mealPassId = samplePass.id ∧
        c.mealType = CheckMeal.breakfast ∧
        c.createdAt / secondsPerDay = 700 / secondsPerDay) →
      create_checkin 700 "c1" sampleCheckinDB "m1" "mp0" .breakfast =
        (.error ⟨400, "Already checked in for this meal today"⟩, sampleCheckinDB)) ∧
    (¬(∃ c ∈ sampleCheckinDB.checkIns, c.mealPassId = samplePass.id ∧
        c.mealType = CheckMeal.breakfast ∧
        c.createdAt / secondsPerDay = 700 / secondsPerDay) →
      ∃ c, create_checkin 700 "c1" sampleCheckinDB "m1" "mp0" .breakfast =
          (.ok c, { sampleCheckinDB with
                      checkIns := sampleCheckinDB.checkIns ++ [c] }) ∧
        c.userId = samplePass.userId ∧ c.messId = samplePass.messId ∧
        c.mealPassId = samplePass.id ∧ c.mealType = CheckMeal.breakfast ∧
        c.status = .success ∧ c.createdAt = 700) ∧
    (checkinUnique sampleCheckinDB.checkIns →
      checkinUnique (create_checkin 700 "c1" sampleCheckinDB "m1" "mp0" .breakfast).2.checkIns) :=
  create_checkin_daily_unique 700 "c1" sampleCheckinDB "m1" "mp0" .breakfast
    samplePass { sampleSub with status := .Active } rfl rfl rfl rfl rfl

/-! ### C5 -/

/-- C5: `validate_meal_pass` returns the populated pass iff a pass with the
QR code exists, is not blocked, is active, `now` lies within
`[validFrom, validTill]`, the referenced subscription exists with status
`Active`, and the referenced user exists.  The failure causes, checked in the
code's order, each map to their own error: no pass → 404 "Invalid QR code";
blocked → 403 (with the block reason); not active → 403; outside the validity
window → 403 "Meal pass has expired"; no subscription → 404; subscription not
active → 403; no user → 404.  Hence, under the well-formedness assumption
(presupposed by the claim's `[validFrom, validTill]`) that a stored pass
matching the code carries its validity dates, every failure is an HTTP 404 or
HTTP 403. -/
theorem validate_meal_pass_conditions (now : Nat) (db : DB) (qr : String)
    (hwf : ∀ mp, findPassByQr db qr = some mp →
      mp.validFrom.isSome = true ∧ mp.validTill.isSome = true) :
    ((∃ r, validate_meal_pass now db qr = .ok r) ↔
      ∃ mp, findPassByQr db qr = some mp ∧ mp.isBlocked = false ∧
        mp.isActive = true ∧
        (∃ vf vt, mp.validFrom = some vf ∧ mp.validTill = some vt ∧
          vf ≤ now ∧ now ≤ vt) ∧
        (∃ sub, findSubscriptionById db mp.subscriptionId = some sub ∧
          sub.status = .Active) ∧
        (∃ u, findUser db mp.userId = some u)) ∧
    (findPassByQr db qr = none →
      validate_meal_pass now db qr = .error ⟨404, "Invalid QR code"⟩) ∧
    (∀ mp, findPassByQr db qr = some mp →
      (mp.isBlocked = true →
        validate_meal_pass now db qr =
          .error ⟨403, "User is blocked: " ++ (mp.blockReason.getD "None")⟩) ∧
      (mp.isBlocked = false → mp.isActive = false →
        validate_meal_pass now db qr =
          .error ⟨403, "Meal pass is not active"⟩) ∧
      (∀ vf vt, mp.validFrom = some vf → mp.validTill = some vt →
        mp.isBlocked = false → mp.isActive = true →
        (now < vf ∨ now > vt) →
        validate_meal_pass now db qr =
          .error ⟨403, "Meal pass has expired"⟩) ∧
      (∀ vf vt, mp.validFrom = some vf → mp.validTill = some vt →
        mp.isBlocked = false → mp.isActive = true → vf ≤ now → now ≤ vt →
        (findSubscriptionById db mp.subscriptionId = none →
          validate_meal_pass now db qr =
            .error ⟨404, "Subscription not found"⟩) ∧
        (∀ sub, findSubscriptionById db mp.subscriptionId = some sub →
          (sub.status ≠ .Active →
            validate_meal_pass now db qr =
              .error ⟨403, "Subscription is not active"⟩) ∧
          (sub.status = .Active → findUser db mp.userId = none →
            validate_meal_pass now db qr =
              .error ⟨404, "User not found"⟩)))) ∧
    (∀ e, validate_meal_pass now db qr = .error e →
      e.statusCode = 404 ∨ e.statusCode = 403) := by
  cases hfind : findPassByQr db qr with
  | none =>
    refine ⟨?_, ?_, ?_, ?_⟩
    · constructor
      · rintro ⟨r, hr⟩
        simp only [validate_meal_pass, hfind] at hr
        exact Except.noConfusion hr
      · rintro ⟨mp, hmp, _⟩
        exact Option.noConfusion hmp
    · intro _
      simp [validate_meal_pass, hfind]
    · intro mp hmp
      exact Option.noConfusion hmp
    · intro e he
      simp only [validate_meal_pass, hfind] at he
      injection he with h
      subst h
      exact Or.inl rfl
  | some mp =>
    obtain ⟨hvfS, hvtS⟩ := hwf mp hfind
    obtain ⟨vf, hvf⟩ := Option.isSome_iff_exists.mp hvfS
    obtain ⟨vt, hvt⟩ := Option.isSome_iff_exists.mp hvtS
    refine ⟨?_, ?_, ?_, ?_⟩
    · constructor
      · rintro ⟨r, hr⟩
        simp only [validate_meal_pass, hfind, hvf, hvt] at hr
        refine ⟨mp, rfl, ?_⟩
        by_cases hb : mp.isBlocked = true
        · simp [hb] at hr
        · simp only [Bool.not_eq_true] at hb
          by_cases ha : mp.isActive = true
          · by_cases h1 : now < vf
            · simp [hb, ha, h1] at hr
            · by_cases h2 : now > vt
              · simp [hb, ha, h1, h2] at hr
              · cases hs : findSubscriptionById db mp.subscriptionId with
                | none => simp [hb, ha, h1, h2, hs] at hr
                | some sub =>
                  by_cases hsact : sub.status = SubStatus.Active
                  · cases huu : findUser db mp.userId with
                    | none => simp [hb, ha, h1, h2, hs, hsact, huu] at hr
                    | some u =>
                      exact ⟨hb, ha, ⟨vf, vt, hvf, hvt, by omega, by omega⟩,
                        ⟨sub, rfl, hsact⟩, ⟨u, rfl⟩⟩
                  · simp [hb, ha, h1, h2, hs, hsact] at hr
          · simp [hb, ha] at hr
      · rintro ⟨mp2, hmp2, hnb, hac, ⟨vf2, vt2, hvf2, hvt2, hle, hge⟩,
          ⟨sub, hs, hsact⟩, ⟨u, huu⟩⟩
        injection hmp2 with hEq
        subst hEq
        rw [hvf] at hvf2
        injection hvf2 with hvfEq
        subst hvfEq
        rw [hvt] at hvt2
        injection hvt2 with hvtEq
        subst hvtEq
        have h1 : ¬(now < vf) := by omega
        have h2 : ¬(now > vt) := by omega
        refine ⟨(mp, sub, u), ?_⟩
        simp [validate_meal_pass, hfind, hvf, hvt, hnb, hac, h1, h2, hs, hsact, huu]
    · intro h
      exact Option.noConfusion h
    · intro mp2 hmp2
      injection hmp2 with hEq
      subst hEq
      refine ⟨?_, ?_, ?_, ?_⟩
      · intro hb
        simp [validate_meal_pass, hfind, hb]
      · intro hnb hna
        simp [validate_meal_pass, hfind, hnb, hna]
      · intro vf2 vt2 hvf2 hvt2 hnb hact hout
        rcases hout with h | h
        · simp [validate_meal_pass, hfind, hvf2, hvt2, hnb, hact, h]
        · by_cases h1 : now < vf2
          · simp [validate_meal_pass, hfind, hvf2, hvt2, hnb, hact, h1]
          · simp [validate_meal_pass, hfind, hvf2, hvt2, hnb, hact, h1, h]
      · intro vf2 vt2 hvf2 hvt2 hnb hact hle hge
        have h1 : ¬(now < vf2) := by omega
        have h2 : ¬(now > vt2) := by omega
        refine ⟨?_, ?_⟩
        · intro hs
          simp [validate_meal_pass, hfind, hvf2, hvt2, hnb, hact, h1, h2, hs]
        · intro sub hs
          refine ⟨?_, ?_⟩
          · intro hne
            have hbne : (sub.status != SubStatus.Active) = true := bne_iff_ne.mpr hne
            simp [validate_meal_pass, hfind, hvf2, hvt2, hnb, hact, h1, h2, hs, hbne]
          · intro hsact huu
            simp [validate_meal_pass, hfind, hvf2, hvt2, hnb, hact, h1, h2, hs,
              hsact, huu]
    · intro e he
      by_cases hb : mp.isBlocked = true
      · have hv : validate_meal_pass now db qr =
            .error ⟨403, "User is blocked: " ++ (mp.blockReason.getD "None")⟩ := by
          simp [validate_meal_pass, hfind, hb]
        rw [hv] at he
        injection he with h
        subst h
        exact Or.inr rfl
      · simp only [Bool.not_eq_true] at hb
        by_cases ha : mp.isActive = true
        · by_cases h1 : now < vf
          · have hv : validate_meal_pass now db qr =
                .error ⟨403, "Meal pass has expired"⟩ := by
              simp [validate_meal_pass, hfind, hvf, hvt, hb, ha, h1]
            rw [hv] at he
            injection he with h
            subst h
            exact Or.inr rfl
          · by_cases h2 : now > vt
            · have hv : validate_meal_pass now db qr =
                  .error ⟨403, "Meal pass has expired"⟩ := by
                simp [validate_meal_pass, hfind, hvf, hvt, hb, ha, h1, h2]
              rw [hv] at he
              injection he with h
              subst h
              exact Or.inr rfl
            · cases hs : findSubscriptionById db mp.subscriptionId with
              | none =>
                have hv : validate_meal_pass now db qr =
                    .error ⟨404, "Subscription not found"⟩ := by
                  simp [validate_meal_pass, hfind, hvf, hvt, hb, ha, h1, h2, hs]
                rw [hv] at he
                injection he with h
                subst h
                exact Or.inl rfl
              | some sub =>
                by_cases hsact : sub.status = SubStatus.Active
                · cases huu : findUser db mp.userId with
                  | none =>
                    have hv : validate_meal_pass now db qr =
                        .error ⟨404, "User not found"⟩ := by
                      simp [validate_meal_pass, hfind, hvf, hvt, hb, ha, h1, h2,
                        hs, hsact, huu]
                    rw [hv] at he
                    injection he with h
                    subst h
                    exact Or.inl rfl
                  | some u =>
                    have hv : validate_meal_pass now db qr = .ok (mp, sub, u) := by
                      simp [validate_meal_pass, hfind, hvf, hvt, hb, ha, h1, h2,
                        hs, hsact, huu]
                    rw [hv] at he
                    exact Except.noConfusion he
                · have hv : validate_meal_pass now db qr =
                      .error ⟨403, "Subscription is not active"⟩ := by
                    simp [validate_meal_pass, hfind, hvf, hvt, hb, ha, h1, h2,
                      hs, hsact]
                  rw [hv] at he
                  injection he with h
                  subst h
                  exact Or.inr rfl
        · have hv : validate_meal_pass now db qr =
              .error ⟨403, "Meal pass is not active"⟩ := by
            simp [validate_meal_pass, hfind, hb, ha]
          rw [hv] at he
          injection he with h
          subst h
          exact Or.inr rfl

/-- Witness for C5 on the concrete fixtures (all checks passing at `now` 600). -/
theorem validate_meal_pass_conditions_witness :
    ((∃ r, validate_meal_pass 600 sampleCheckinDB "qr0" = .ok r) ↔
      ∃ mp, findPassByQr sampleCheckinDB "qr0" = some mp ∧ mp.isBlocked = false ∧
        mp.isActive = true ∧
        (∃ vf vt, mp.validFrom = some vf ∧ mp.validTill = some vt ∧
          vf ≤ 600 ∧ 600 ≤ vt) ∧
        (∃ sub, findSubscriptionById sampleCheckinDB mp.subscriptionId = some sub ∧
          sub.status = .Active) ∧
        (∃ u, findUser sampleCheckinDB mp.userId = some u)) ∧
    (findPassByQr sampleCheckinDB "qr0" = none →
      validate_meal_pass 600 sampleCheckinDB "qr0" =
        .error ⟨404, "Invalid QR code"⟩) ∧
    (∀ mp, findPassByQr sampleCheckinDB "qr0" = some mp →
      (mp.isBlocked = true →
        validate_meal_pass 600 sampleCheckinDB "qr0" =
          .error ⟨403, "User is blocked: " ++ (mp.blockReason.getD "None")⟩) ∧
      (mp.isBlocked = false → mp.isActive = false →
        validate_meal_pass 600 sampleCheckinDB "qr0" =
          .error ⟨403, "Meal pass is not active"⟩) ∧
      (∀ vf vt, mp.validFrom = some vf → mp.validTill = some vt →
        mp.isBlocked = false → mp.isActive = true →
        (600 < vf ∨ 600 > vt) →
        validate_meal_pass 600 sampleCheckinDB "qr0" =
          .error ⟨403, "Meal pass has expired"⟩) ∧
      (∀ vf vt, mp.validFrom = some vf → mp.validTill = some vt →
        mp.isBlocked = false → mp.isActive = true → vf ≤ 600 → 600 ≤ vt →
        (findSubscriptionById sampleCheckinDB mp.subscriptionId = none →
          validate_meal_pass 600 sampleCheckinDB "qr0" =
            .error ⟨404, "Subscription not found"⟩) ∧
        (∀ sub, findSubscriptionById sampleCheckinDB mp.subscriptionId = some sub →
          (sub.status ≠ .Active →
            validate_meal_pass 600 sampleCheckinDB "qr0" =
              .error ⟨403, "Subscription is not active"⟩) ∧
          (sub.status = .Active → findUser sampleCheckinDB mp.userId = none →
            validate_meal_pass 600 sampleCheckinDB "qr0" =
              .error ⟨404, "User not found"⟩)))) ∧
    (∀ e, validate_meal_pass 600 sampleCheckinDB "qr0" = .error e →
      e.statusCode = 404 ∨ e.statusCode = 403) :=
  validate_meal_pass_conditions 600 sampleCheckinDB "qr0"
    (by
      intro mp h
      injection h with hh
      subst hh
      exact ⟨rfl, rfl⟩)

end MessBuddy
